import Mathlib

/-!
Shallow embedding of the canteen admin components:
`AdminInventorySection.jsx` (stock adjustment workflow, low-stock detection,
ledger read path), `AdminMenuSection.jsx` (menu item create/edit/delete with
zod validation) and `AdminOrderSection.jsx` (order status update).

The Supabase tables `menu_items`, `inventory_logs` and `orders` are modelled
as lists of records inside a `Db` state; each handler becomes a pure function
from the old state (plus the component's inputs) to the new state.  JavaScript
string truthiness (`!adjustmentReason`) is exactly the test for the empty
string, so it is embedded as `adjustmentReason = ""`.  `z.string().url()` is
kept abstract as a Boolean parameter `isUrl`, since no claim depends on URL
syntax.  Prices (floats in the source) are embedded as rationals.
-/

/-- A row of the `menu_items` table. -/
structure MenuItem where
  id : Nat
  name : String
  description : String
  price : Rat
  category : String
  stock_quantity : Int
  is_available : Bool
  image_url : Option String
  deriving Repr, DecidableEq

/-- A row of the `inventory_logs` table (the stock-adjustment ledger). -/
structure InventoryLog where
  id : Nat
  menu_item_id : Nat
  change_amount : Int
  previous_stock : Int
  new_stock : Int
  reason : String
  created_at : Int
  deriving Repr, DecidableEq

/-- A row of the `orders` table (only the column the admin screens write). -/
structure OrderRow where
  id : Nat
  status : String
  deriving Repr, DecidableEq

/-- The persisted state the three admin components read and write. -/
structure Db where
  menu_items : List MenuItem
  inventory_logs : List InventoryLog
  orders : List OrderRow
  deriving Repr, DecidableEq

/-- Result of `handleAdjustment`: which toast fires (the two validation
failures return early) or success carrying the computed `newStock`. -/
inductive AdjustResult where
  | missingReason
  | negativeStock
  | ok (newStock : Int)
  deriving Repr, DecidableEq

/-- The Supabase call
`update({ stock_quantity: newStock, is_available: newStock > 0 }).eq('id', id)`:
set the two columns on every row whose `id` matches. -/
def adjustMenuItemsWrite (items : List MenuItem) (id : Nat) (newStock : Int) :
    List MenuItem :=
  items.map fun r =>
    if r.id = id then
      { r with stock_quantity := newStock, is_available := decide (newStock > 0) }
    else r

/-- `handleAdjustment` from `AdminInventorySection.jsx` (lines 59-108):
`if (!selectedItem || !adjustmentReason)` return the missing-reason toast;
compute `newStock = selectedItem.stock_quantity + adjustmentAmount`;
`if (newStock < 0)` return the negative-stock toast; otherwise update
`menu_items` only — the function performs no insert into `inventory_logs`. -/
def handleAdjustment (db : Db) (selectedItem : Option MenuItem)
    (adjustmentAmount : Int) (adjustmentReason : String) : AdjustResult × Db :=
  match selectedItem with
  | none => (AdjustResult.missingReason, db)
  | some item =>
    if adjustmentReason = "" then (AdjustResult.missingReason, db)
    else
      let newStock := item.stock_quantity + adjustmentAmount
      if newStock < 0 then (AdjustResult.negativeStock, db)
      else (AdjustResult.ok newStock,
        { db with menu_items := adjustMenuItemsWrite db.menu_items item.id newStock })

/-- `const lowStockItems = menuItems.filter(item => item.stock_quantity <= 10)`. -/
def lowStockItems (menuItems : List MenuItem) : List MenuItem :=
  menuItems.filter fun item => decide (item.stock_quantity ≤ 10)

/-- The `order('created_at', { ascending: false })` comparison: `a` is at
least as recent as `b`. -/
def newerOrSame (a b : InventoryLog) : Prop := b.created_at ≤ a.created_at

instance : DecidableRel newerOrSame := fun a b => Int.decLe b.created_at a.created_at

instance : IsTotal InventoryLog newerOrSame := ⟨fun a b => le_total b.created_at a.created_at⟩

instance : IsTrans InventoryLog newerOrSame := ⟨fun _ _ _ h h' => le_trans h' h⟩

/-- The embedded join `select('*, menu_items (name)')`: pair a log row with
the name of the menu item whose `id` equals its `menu_item_id`, if any. -/
def joinItemName (items : List MenuItem) (log : InventoryLog) :
    InventoryLog × Option String :=
  (log, (items.find? fun m => decide (m.id = log.menu_item_id)).map MenuItem.name)

/-- The `inventory_logs` query of `fetchData` (lines 33-40): select all log
rows joined with their item's name, ordered by `created_at` descending,
limited to 20 rows. -/
def recentAdjustments (db : Db) : List (InventoryLog × Option String) :=
  ((db.inventory_logs.insertionSort newerOrSame).take 20).map (joinItemName db.menu_items)

/-- The form state of `AdminMenuSection` submitted to `menuItemSchema.parse`. -/
structure MenuItemForm where
  name : String
  description : String
  price : Rat
  category : String
  stock_quantity : Int
  image_url : String
  deriving Repr, DecidableEq

/-- `z.enum(['breakfast', 'lunch', 'dinner', 'snacks', 'beverages', 'desserts'])`. -/
def validCategory (c : String) : Bool :=
  c = "breakfast" || c = "lunch" || c = "dinner" || c = "snacks" ||
    c = "beverages" || c = "desserts"

/-- `menuItemSchema` from `AdminMenuSection.jsx` (lines 15-22).  `isUrl`
abstracts `z.string().url()`. -/
def menuItemSchema (isUrl : String → Bool) (f : MenuItemForm) : Bool :=
  (decide (2 ≤ f.name.length) && decide (f.name.length ≤ 100)) &&
  decide (f.description.length ≤ 500) &&
  decide (0 ≤ f.price) &&
  validCategory f.category &&
  decide (0 ≤ f.stock_quantity) &&
  (isUrl f.image_url || decide (f.image_url = ""))

/-- The row built by the `insert` branch of `handleSubmit`; `id` is assigned
by the store and `is_available` takes the table default, so both are
parameters. -/
def menuItemFromForm (newId : Nat) (defaultAvail : Bool) (f : MenuItemForm) :
    MenuItem :=
  { id := newId, name := f.name, description := f.description, price := f.price,
    category := f.category, stock_quantity := f.stock_quantity,
    is_available := defaultAvail,
    image_url := if f.image_url = "" then none else some f.image_url }

/-- `handleSubmit` from `AdminMenuSection.jsx` (lines 63-126): validate the
form against `menuItemSchema` (a `ZodError` aborts with no write), then
either update every column of the row with `editingItem.id` or insert a new
row; `image_url: formData.image_url || null` maps `""` to `null`. -/
def handleSubmit (isUrl : String → Bool) (db : Db) (editingItem : Option Nat)
    (f : MenuItemForm) (newId : Nat) (defaultAvail : Bool) : Db :=
  if menuItemSchema isUrl f then
    match editingItem with
    | some eid =>
      { db with menu_items := db.menu_items.map fun r =>
          if r.id = eid then
            { r with name := f.name, description := f.description,
                     price := f.price, category := f.category,
                     stock_quantity := f.stock_quantity,
                     image_url := if f.image_url = "" then none else some f.image_url }
          else r }
    | none =>
      { db with menu_items := db.menu_items ++ [menuItemFromForm newId defaultAvail f] }
  else db

/-- `handleDelete` from `AdminMenuSection.jsx` (lines 141-165): after the
`confirm` dialog, `delete().eq('id', id)` keeps exactly the rows whose `id`
differs. -/
def handleDelete (db : Db) (confirmed : Bool) (id : Nat) : Db :=
  if confirmed then
    { db with menu_items := db.menu_items.filter fun r => decide (r.id ≠ id) }
  else db

/-- `updateOrderStatus` from `AdminOrderSection.jsx` (lines 66-86):
`update({ status: newStatus }).eq('id', orderId)` on the `orders` table. -/
def updateOrderStatus (db : Db) (orderId : Nat) (newStatus : String) : Db :=
  { db with orders := db.orders.map fun o =>
      if o.id = orderId then { o with status := newStatus } else o }

/-- The write operations the three components can issue against the store. -/
inductive WriteOp where
  | adjust (selectedItem : Option MenuItem) (amount : Int) (reason : String)
  | submit (isUrl : String → Bool) (editingItem : Option Nat)
      (form : MenuItemForm) (newId : Nat) (defaultAvail : Bool)
  | remove (confirmed : Bool) (id : Nat)
  | orderStatus (orderId : Nat) (newStatus : String)

/-- Dispatch one write operation to its handler. -/
def applyWrite (db : Db) : WriteOp → Db
  | .adjust sel amt reason => (handleAdjustment db sel amt reason).2
  | .submit isUrl editing f newId dflt => handleSubmit isUrl db editing f newId dflt
  | .remove c id => handleDelete db c id
  | .orderStatus oid s => updateOrderStatus db oid s

/-- Every menu item in the store has non-negative stock. -/
def stockInvariant (db : Db) : Prop :=
  ∀ m ∈ db.menu_items, 0 ≤ m.stock_quantity

/-- A successful `handleAdjustment` call pins down the result and the new
state: `ns` is the snapshot stock plus the delta, it is non-negative, the
reason was non-empty, and the only change to the store is the two-column
update of the matching `menu_items` rows. -/
theorem handleAdjustment_ok (db db' : Db) (item : MenuItem) (amount : Int)
    (reason : String) (ns : Int)
    (h : handleAdjustment db (some item) amount reason = (AdjustResult.ok ns, db')) :
    ns = item.stock_quantity + amount ∧ 0 ≤ ns ∧ reason ≠ "" ∧
      db' = { db with menu_items := adjustMenuItemsWrite db.menu_items item.id ns } := by
  unfold handleAdjustment at h
  by_cases hre : reason = ""
  · simp [hre] at h
  · simp only [hre, if_false] at h
    by_cases hneg : item.stock_quantity + amount < 0
    · simp [hneg] at h
    · simp only [hneg, if_false, Prod.mk.injEq, AdjustResult.ok.injEq] at h
      obtain ⟨rfl, rfl⟩ := h
      exact ⟨rfl, le_of_not_lt hneg, hre, rfl⟩

def itemC1 : MenuItem :=
  { id := 1, name := "Tea", description := "hot", price := 5,
    category := "beverages", stock_quantity := 5, is_available := true,
    image_url := none }

def dbC1 : Db := { menu_items := [itemC1], inventory_logs := [], orders := [] }

/-- C1: on the valid input (stock 5, delta 3, reason "Restock") the workflow
succeeds and persists stock 8, but appends no ledger entry at all —
`handleAdjustment` never inserts into `inventory_logs`, so the claimed
"exactly one ledger entry" is violated by the code. -/
theorem c1_success_appends_no_ledger_entry :
    (handleAdjustment dbC1 (some itemC1) 3 "Restock").1 = AdjustResult.ok 8 ∧
    ((handleAdjustment dbC1 (some itemC1) 3 "Restock").2).menu_items.map
        MenuItem.stock_quantity = [8] ∧
    ((handleAdjustment dbC1 (some itemC1) 3 "Restock").2).inventory_logs = [] := by
  decide

/-- C2: whenever a reason is supplied and the snapshot stock plus the delta
is negative, the workflow fails with the negative-stock error and returns the
store unchanged: no ledger entry and no stock mutation. -/
theorem c2_negative_stock_rejected (db : Db) (item : MenuItem) (amount : Int)
    (reason : String) (hre : reason ≠ "")
    (hneg : item.stock_quantity + amount < 0) :
    handleAdjustment db (some item) amount reason = (AdjustResult.negativeStock, db) := by
  unfold handleAdjustment
  simp [hre, hneg]

def itemC2 : MenuItem :=
  { id := 2, name := "Pie", description := "", price := 3,
    category := "snacks", stock_quantity := 5, is_available := true,
    image_url := none }

def dbC2 : Db := { menu_items := [itemC2], inventory_logs := [], orders := [] }

theorem c2_witness :
    handleAdjustment dbC2 (some itemC2) (-9) "damaged" =
      (AdjustResult.negativeStock, dbC2) :=
  c2_negative_stock_rejected dbC2 itemC2 (-9) "damaged" (by decide) (by decide)

def itemC3 : MenuItem :=
  { id := 3, name := "Rice", description := "", price := 2,
    category := "lunch", stock_quantity := 0, is_available := false,
    image_url := none }

def dbC3 : Db := { menu_items := [itemC3], inventory_logs := [], orders := [] }

/-- C3 counterexample: with the whitespace-only reason `" "` (and stock 0,
delta 5) the workflow does not fail with the missing-reason error — the code
tests raw string truthiness without trimming — and it does mutate the store. -/
theorem c3_whitespace_reason_not_rejected :
    (handleAdjustment dbC3 (some itemC3) 5 " ").1 ≠ AdjustResult.missingReason ∧
    (handleAdjustment dbC3 (some itemC3) 5 " ").2 ≠ dbC3 := by
  decide

/-- C3 (amended): for every input whose reason is exactly the empty string,
the workflow fails with the missing-reason error and leaves the store
untouched; whitespace-only reasons pass the check because the code does not
trim. -/
theorem c3_empty_reason_rejected (db : Db) (sel : Option MenuItem) (amount : Int) :
    handleAdjustment db sel amount "" = (AdjustResult.missingReason, db) := by
  cases sel <;> simp [handleAdjustment]

def itemC9 : MenuItem :=
  { id := 9, name := "Milk", description := "", price := 1,
    category := "beverages", stock_quantity := 10, is_available := true,
    image_url := none }

def dbC9 : Db := { menu_items := [itemC9], inventory_logs := [], orders := [] }

/-- The store after admin A applies delta `-5` against the snapshot of stock
10, then admin B applies delta `-3` against the same stale snapshot. -/
def dbC9AfterBoth : Db :=
  (handleAdjustment (handleAdjustment dbC9 (some itemC9) (-5) "spoilage").2
    (some itemC9) (-3) "spoilage").2

/-- C9: the persisted write is an unconditional overwrite with the
client-computed `newStock`: replaying two adjustments of `-5` and `-3` that
both read the snapshot stock 10 leaves final stock `10 + (-3) = 7` — the
first update is lost — and no ledger entries, not the claimed stock 2 with
two entries. -/
theorem c9_lost_update :
    dbC9AfterBoth.menu_items.map MenuItem.stock_quantity = [7] ∧
    dbC9AfterBoth.inventory_logs = [] := by
  decide

/-- C4: non-negative stock is preserved by every write path: the adjustment
handler rejects any delta that would make the written stock negative, menu
create/edit only persists forms whose `stock_quantity` passed the schema's
non-negativity check, deletion removes rows, and order-status updates do not
touch `menu_items`. -/
theorem c4_stock_invariant_preserved (db : Db) (op : WriteOp)
    (hinv : stockInvariant db) : stockInvariant (applyWrite db op) := by
  cases op with
  | adjust sel amount reason =>
    cases sel with
    | none => simpa [applyWrite, handleAdjustment] using hinv
    | some item =>
      by_cases hre : reason = ""
      · simpa [applyWrite, handleAdjustment, hre] using hinv
      · by_cases hneg : item.stock_quantity + amount < 0
        · simpa [applyWrite, handleAdjustment, hre, hneg] using hinv
        · intro m hm
          simp only [applyWrite, handleAdjustment, hre, hneg, if_false,
            adjustMenuItemsWrite, List.mem_map] at hm
          obtain ⟨r, hr, rfl⟩ := hm
          by_cases hid : r.id = item.id
          · simp only [hid, if_true]
            exact le_of_not_lt hneg
          · simp only [hid, if_false]
            exact hinv r hr
  | submit isUrl editing f newId dflt =>
    by_cases hs : menuItemSchema isUrl f = true
    · have hstock : (0 : Int) ≤ f.stock_quantity := by
        unfold menuItemSchema at hs
        simp only [Bool.and_eq_true, decide_eq_true_eq] at hs
        exact hs.1.2
      cases editing with
      | some eid =>
        intro m hm
        simp only [applyWrite, handleSubmit, hs, if_true, List.mem_map] at hm
        obtain ⟨r, hr, rfl⟩ := hm
        by_cases hid : r.id = eid
        · simpa [hid] using hstock
        · simpa [hid] using hinv r hr
      | none =>
        intro m hm
        simp only [applyWrite, handleSubmit, hs, if_true, List.mem_append,
          List.mem_singleton] at hm
        rcases hm with hm | rfl
        · exact hinv m hm
        · simpa [menuItemFromForm] using hstock
    · intro m hm
      simp only [applyWrite, handleSubmit, hs, if_false] at hm
      exact hinv m hm
  | remove c id =>
    by_cases hc : c = true
    · intro m hm
      simp only [applyWrite, handleDelete, hc, if_true, List.mem_filter] at hm
      exact hinv m hm.1
    · intro m hm
      simp only [Bool.not_eq_true] at hc
      simp only [applyWrite, handleDelete, hc] at hm
      exact hinv m hm
  | orderStatus oid s =>
    intro m hm
    simp only [applyWrite, updateOrderStatus] at hm
    exact hinv m hm

def itemC4 : MenuItem :=
  { id := 4, name := "Soup", description := "", price := 4,
    category := "dinner", stock_quantity := 1, is_available := true,
    image_url := none }

def dbC4 : Db := { menu_items := [itemC4], inventory_logs := [], orders := [] }

theorem c4_witness :
    stockInvariant (applyWrite dbC4 (WriteOp.adjust (some itemC4) (-1) "sold out")) :=
  c4_stock_invariant_preserved dbC4 (WriteOp.adjust (some itemC4) (-1) "sold out")
    (by intro m hm; fin_cases hm; decide)

/-- C5: after any successful adjustment, every `menu_items` row with the
selected item's id carries exactly the written stock `ns` and availability
`ns > 0`: availability is true iff the resulting stock is strictly
positive. -/
theorem c5_availability_matches_stock (db db' : Db) (item : MenuItem)
    (amount : Int) (reason : String) (ns : Int)
    (h : handleAdjustment db (some item) amount reason = (AdjustResult.ok ns, db')) :
    ∀ r ∈ db'.menu_items, r.id = item.id →
      r.stock_quantity = ns ∧ (r.is_available = true ↔ ns > 0) := by
  obtain ⟨-, -, -, rfl⟩ := handleAdjustment_ok db db' item amount reason ns h
  intro r hr hid
  simp only [adjustMenuItemsWrite, List.mem_map] at hr
  obtain ⟨s, hs, rfl⟩ := hr
  by_cases hsid : s.id = item.id
  · simp [hsid]
  · simp only [hsid, if_false] at hid

def itemC5 : MenuItem :=
  { id := 5, name := "Cake", description := "", price := 6,
    category := "desserts", stock_quantity := 2, is_available := true,
    image_url := none }

def dbC5 : Db := { menu_items := [itemC5], inventory_logs := [], orders := [] }

def dbC5After : Db := (handleAdjustment dbC5 (some itemC5) 3 "restock").2

def itemC5After : MenuItem := { itemC5 with stock_quantity := 5 }

theorem c5_witness :
    itemC5After.stock_quantity = 5 ∧ (itemC5After.is_available = true ↔ (5 : Int) > 0) :=
  c5_availability_matches_stock dbC5 dbC5After itemC5 3 "restock" 5 (by decide)
    itemC5After (by decide) (by decide)

/-- C6: validation order, first failure wins: with an empty reason the
workflow reports the missing-reason error even when the delta would drive
stock negative, and the negative-stock error can only ever be produced when
a non-empty reason was supplied. -/
theorem c6_missing_reason_wins :
    (∀ (db : Db) (item : MenuItem) (amount : Int),
        item.stock_quantity + amount < 0 →
        handleAdjustment db (some item) amount "" = (AdjustResult.missingReason, db)) ∧
    (∀ (db db' : Db) (sel : Option MenuItem) (amount : Int) (reason : String),
        handleAdjustment db sel amount reason = (AdjustResult.negativeStock, db') →
        reason ≠ "") := by
  constructor
  · intro db item amount _
    simp [handleAdjustment]
  · intro db db' sel amount reason h hre
    subst hre
    cases sel with
    | none => simp [handleAdjustment] at h
    | some item => simp [handleAdjustment] at h

def itemC6 : MenuItem :=
  { id := 6, name := "Juice", description := "", price := 2,
    category := "beverages", stock_quantity := 2, is_available := true,
    image_url := none }

def dbC6 : Db := { menu_items := [itemC6], inventory_logs := [], orders := [] }

theorem c6_witness :
    handleAdjustment dbC6 (some itemC6) (-7) "" = (AdjustResult.missingReason, dbC6) :=
  c6_missing_reason_wins.1 dbC6 itemC6 (-7) (by decide)

/-- C7: low-stock detection is the pure filter at threshold 10: its output is
a subsequence of the input (order preserved), an item is in the output iff it
is in the input with `stock_quantity ≤ 10` (the boundary value 10 included),
and each item occurs in the output exactly as often as a qualifying item
occurs in the input. -/
theorem c7_lowStockItems_spec (items : List MenuItem) :
    (lowStockItems items).Sublist items ∧
    (∀ i, i ∈ lowStockItems items ↔ i ∈ items ∧ i.stock_quantity ≤ 10) ∧
    (∀ i, (lowStockItems items).count i =
        if i.stock_quantity ≤ 10 then items.count i else 0) := by
  refine ⟨List.filter_sublist items, fun i => ?_, fun i => ?_⟩
  · simp [lowStockItems, List.mem_filter]
  · by_cases hi : i.stock_quantity ≤ 10
    · rw [if_pos hi]
      exact List.count_filter (by simpa using hi)
    · rw [if_neg hi, List.count_eq_zero]
      intro hmem
      exact hi (by simpa using (List.mem_filter.1 hmem).2)

def itemC7 : MenuItem :=
  { id := 7, name := "Bread", description := "", price := 1,
    category := "breakfast", stock_quantity := 10, is_available := true,
    image_url := none }

def itemC7b : MenuItem :=
  { id := 8, name := "Jam", description := "", price := 2,
    category := "breakfast", stock_quantity := 15, is_available := true,
    image_url := none }

theorem c7_witness :
    itemC7 ∈ lowStockItems [itemC7, itemC7b] ↔
      itemC7 ∈ [itemC7, itemC7b] ∧ itemC7.stock_quantity ≤ 10 :=
  (c7_lowStockItems_spec [itemC7, itemC7b]).2.1 itemC7

/-- C8: the ledger read path is sorted newest-first by `created_at`, returns
at most 20 rows, returns only rows that are in the stored ledger (no entry is
altered), and every name it pairs with a row is the name of a stored menu
item whose `id` equals the row's `menu_item_id`. -/
theorem c8_recentAdjustments_spec (db : Db) :
    List.Pairwise (fun p q : InventoryLog × Option String =>
        q.1.created_at ≤ p.1.created_at) (recentAdjustments db) ∧
    (recentAdjustments db).length ≤ 20 ∧
    (∀ p, p ∈ recentAdjustments db → p.1 ∈ db.inventory_logs) ∧
    (∀ p name, p ∈ recentAdjustments db → p.2 = some name →
        ∃ m, m ∈ db.menu_items ∧ m.id = p.1.menu_item_id ∧ m.name = name) := by
  have hsorted : List.Pairwise newerOrSame
      (db.inventory_logs.insertionSort newerOrSame) :=
    List.sorted_insertionSort newerOrSame db.inventory_logs
  refine ⟨?_, ?_, ?_, ?_⟩
  · unfold recentAdjustments
    refine List.Pairwise.map _ ?_ (hsorted.sublist (List.take_sublist 20 _))
    intro a b hab
    simpa [joinItemName] using hab
  · simp only [recentAdjustments, List.length_map, List.length_take]
    exact le_trans (min_le_left _ _) le_rfl
  · intro p hp
    unfold recentAdjustments at hp
    rw [List.mem_map] at hp
    obtain ⟨a, ha, rfl⟩ := hp
    have hmem : a ∈ db.inventory_logs.insertionSort newerOrSame :=
      (List.take_sublist 20 _).subset ha
    have := (List.perm_insertionSort newerOrSame db.inventory_logs).mem_iff.1 hmem
    simpa [joinItemName] using this
  · intro p name hp hname
    unfold recentAdjustments at hp
    rw [List.mem_map] at hp
    obtain ⟨a, ha, rfl⟩ := hp
    simp only [joinItemName] at hname ⊢
    rw [Option.map_eq_some'] at hname
    obtain ⟨m, hfind, hmn⟩ := hname
    have hpm :=
      @List.find?_some MenuItem (fun n => decide (n.id = a.menu_item_id)) m
        db.menu_items hfind
    exact ⟨m, List.mem_of_find?_eq_some hfind, of_decide_eq_true hpm, hmn⟩

def itemC8 : MenuItem :=
  { id := 1, name := "Tea", description := "", price := 5,
    category := "beverages", stock_quantity := 8, is_available := true,
    image_url := none }

def logC8 : InventoryLog :=
  { id := 1, menu_item_id := 1, change_amount := 2, previous_stock := 3,
    new_stock := 5, reason := "restock", created_at := 100 }

def dbC8 : Db := { menu_items := [itemC8], inventory_logs := [logC8], orders := [] }

theorem c8_witness :
    ∃ m, m ∈ dbC8.menu_items ∧ m.id = logC8.menu_item_id ∧ m.name = "Tea" :=
  (c8_recentAdjustments_spec dbC8).2.2.2 (logC8, some "Tea") "Tea" (by decide) (by decide)

/-- C10: a successful adjustment leaves the ledger and the orders table
unchanged and relates the old and new `menu_items` row-by-row: every row
keeps its id, name, description, price, category and image; rows whose id
differs from the selected item's id are completely unchanged; rows with the
selected id change exactly their `stock_quantity` (to `ns`) and
`is_available` (to `ns > 0`). -/
theorem c10_adjustment_frame (db db' : Db) (item : MenuItem) (amount : Int)
    (reason : String) (ns : Int)
    (h : handleAdjustment db (some item) amount reason = (AdjustResult.ok ns, db')) :
    db'.inventory_logs = db.inventory_logs ∧
    db'.orders = db.orders ∧
    List.Forall₂ (fun r r' : MenuItem =>
        r'.id = r.id ∧ r'.name = r.name ∧ r'.description = r.description ∧
        r'.price = r.price ∧ r'.category = r.category ∧
        r'.image_url = r.image_url ∧
        (r.id ≠ item.id → r' = r) ∧
        (r.id = item.id → r'.stock_quantity = ns ∧
          r'.is_available = decide (ns > 0)))
      db.menu_items db'.menu_items := by
  obtain ⟨-, -, -, rfl⟩ := handleAdjustment_ok db db' item amount reason ns h
  refine ⟨rfl, rfl, ?_⟩
  simp only [adjustMenuItemsWrite]
  rw [List.forall₂_map_right_iff, List.forall₂_same]
  intro r hr
  by_cases hid : r.id = item.id
  · simp [hid]
  · simp [hid]

def itemC10 : MenuItem :=
  { id := 10, name := "Eggs", description := "fried", price := 3,
    category := "breakfast", stock_quantity := 4, is_available := true,
    image_url := some "http://x/e.png" }

def itemC10b : MenuItem :=
  { id := 11, name := "Toast", description := "", price := 1,
    category := "breakfast", stock_quantity := 6, is_available := true,
    image_url := none }

def logC10 : InventoryLog :=
  { id := 2, menu_item_id := 10, change_amount := 1, previous_stock := 3,
    new_stock := 4, reason := "delivery", created_at := 50 }

def dbC10 : Db :=
  { menu_items := [itemC10, itemC10b], inventory_logs := [logC10], orders := [] }

def dbC10After : Db := (handleAdjustment dbC10 (some itemC10) 2 "delivery").2

theorem c10_witness :
    dbC10After.inventory_logs = dbC10.inventory_logs :=
  (c10_adjustment_frame dbC10 dbC10After itemC10 2 "delivery" 6 (by decide)).1
